import Mathlib

/-!
Verification development for the PE portfolio computation engine:
the IRR solver and ratio metrics (`pe_metrics_engine.py`), the cash-flow
processor (`cash_flow_engine.py`), and the projection/allocation engine
(`projection_engine.py`).

Modelling conventions.
Python floats are modelled as exact rationals (`ℚ`).  The two places the
source applies a real-valued transcendental — `x ** t` with a non-integer
exponent in the IRR solver, and `math.exp` in the shape generators — are
abstracted as explicit function parameters (`powf`, `expf`, `pw`): every
theorem below is proved for an arbitrary such function, so it holds in
particular for the real power/exponential the source evaluates in floating
point.  A `powf` result of `none` models a floating-point `OverflowError`
raised by `**`; a zero denominator models Python's `ZeroDivisionError`.
Dates are modelled as day numbers (`ℤ`) where only differences of days
matter (the IRR year fraction), and as year/month/day records where
calendar fields matter (period bucketing, YTD windows).  Calls to
`datetime.now()` are modelled as explicit `now` / `current_year`
arguments representing the ambient wall clock at invocation time.
-/

namespace PE

-- ==========================================================================
-- Metrics engine: configuration constants (config.py)
-- ==========================================================================

def IRR_MAX_ITERATIONS : ℕ := 100

def IRR_TOLERANCE : ℚ := 1 / 1000000

def IRR_INITIAL_GUESS : ℚ := 1 / 10

-- ==========================================================================
-- Metrics engine: calculate_xirr (pe_metrics_engine.py, lines 27-99)
-- ==========================================================================

/-- Year fractions from the first date: `(d - dates[0]).days / 365.25`.
Since `365.25 = 1461/4`, this is exactly `(d - dates[0]) * 4 / 1461`. -/
def yearsFrom (dates : List ℤ) : List ℚ :=
  dates.map (fun d => ((d - dates.headD 0 : ℤ) : ℚ) * 4 / 1461)

/-- One summand `cf / (1 + rate) ** t` of the NPV.  `powf` models the float
power; `none` models an `OverflowError` from `**`, and a zero denominator
models a `ZeroDivisionError` from the division. -/
def npvTerm (powf : ℚ → ℚ → Option ℚ) (rate cf t : ℚ) : Option ℚ :=
  match powf (1 + rate) t with
  | none => none
  | some p => if p = 0 then none else some (cf / p)

/-- One summand `-cf * t / (1 + rate) ** (t + 1)` of the NPV derivative. -/
def dnpvTerm (powf : ℚ → ℚ → Option ℚ) (rate cf t : ℚ) : Option ℚ :=
  match powf (1 + rate) (t + 1) with
  | none => none
  | some p => if p = 0 then none else some (-cf * t / p)

/-- Sum of a list of optional values; any failure aborts the sum, modelling
an exception raised inside Python's `sum(...)`. -/
def sumOption : List (Option ℚ) → Option ℚ
  | [] => some 0
  | o :: rest => o.bind fun x => (sumOption rest).map fun s => x + s

/-- Model of `npv = sum([cf / (1 + rate) ** t for cf, t in zip(cash_flows, years)])`. -/
def npvAt (powf : ℚ → ℚ → Option ℚ) (flows years : List ℚ) (rate : ℚ) : Option ℚ :=
  sumOption ((flows.zip years).map fun p => npvTerm powf rate p.1 p.2)

/-- Model of `dnpv = sum([-cf * t / (1 + rate) ** (t + 1) for ...])`. -/
def dnpvAt (powf : ℚ → ℚ → Option ℚ) (flows years : List ℚ) (rate : ℚ) : Option ℚ :=
  sumOption ((flows.zip years).map fun p => dnpvTerm powf rate p.1 p.2)

/-- The Newton-Raphson loop of `calculate_xirr`: at each of the
`max_iterations` steps it computes NPV and its derivative (any
overflow/zero-division gives `none`), returns the current rate once
`|npv| < tolerance`, gives up when `|dnpv| < tolerance`, updates the rate,
and gives up when the new rate leaves `[-0.99, 10]`; exhausting the
iteration budget gives `none`. -/
def newtonLoop (powf : ℚ → ℚ → Option ℚ) (flows years : List ℚ) (tol : ℚ) :
    ℕ → ℚ → Option ℚ
  | 0, _ => none
  | n + 1, rate =>
    match npvAt powf flows years rate, dnpvAt powf flows years rate with
    | some npv, some dnpv =>
      if |npv| < tol then some rate
      else if |dnpv| < tol then none
      else
        if rate - npv / dnpv < -(99 / 100) ∨ (10 : ℚ) < rate - npv / dnpv then none
        else newtonLoop powf flows years tol n (rate - npv / dnpv)
    | _, _ => none

/-- Model of `calculate_xirr(cash_flows, dates, initial_guess, max_iterations,
tolerance)`: guards for fewer than 2 flows and mismatched list lengths,
then runs the Newton loop on the Actual/365.25 year fractions. -/
def calculate_xirr (powf : ℚ → ℚ → Option ℚ) (cash_flows : List ℚ) (dates : List ℤ)
    (initial_guess : ℚ) (max_iterations : ℕ) (tolerance : ℚ) : Option ℚ :=
  if cash_flows.length < 2 then none
  else if cash_flows.length ≠ dates.length then none
  else newtonLoop powf cash_flows (yearsFrom dates) tolerance max_iterations initial_guess

/-- Transcription of the spec's enumerated in-loop failure conditions for
the IRR solver, in the solver's check order: an overflow/zero-division
while evaluating NPV or its derivative; a derivative magnitude below
tolerance at a non-converged iterate; a Newton update leaving
`[-0.99, 10]`; or the iteration budget passing without `|npv| < tolerance`.
`true` means the solver fails (returns an absent value). -/
def newtonFailureSpec (powf : ℚ → ℚ → Option ℚ) (flows years : List ℚ) (tol : ℚ) :
    ℕ → ℚ → Bool
  | 0, _ => true
  | n + 1, rate =>
    match npvAt powf flows years rate, dnpvAt powf flows years rate with
    | some npv, some dnpv =>
      if |npv| < tol then false
      else if |dnpv| < tol then true
      else
        if rate - npv / dnpv < -(99 / 100) ∨ (10 : ℚ) < rate - npv / dnpv then true
        else newtonFailureSpec powf flows years tol n (rate - npv / dnpv)
    | _, _ => true

-- ==========================================================================
-- Metrics engine: ratio metrics (pe_metrics_engine.py, lines 106-229)
-- ==========================================================================

/-- Model of `calculate_tvpi(total_value, paid_in)`: `None` unless `paid_in > 0`. -/
def calculate_tvpi (total_value paid_in : ℚ) : Option ℚ :=
  if paid_in ≤ 0 then none else some (total_value / paid_in)

/-- Model of `calculate_dpi(distributions, paid_in)`: `None` unless `paid_in > 0`. -/
def calculate_dpi (distributions paid_in : ℚ) : Option ℚ :=
  if paid_in ≤ 0 then none else some (distributions / paid_in)

/-- Model of `calculate_rvpi(nav, paid_in)`: `None` unless `paid_in > 0`. -/
def calculate_rvpi (nav paid_in : ℚ) : Option ℚ :=
  if paid_in ≤ 0 then none else some (nav / paid_in)

/-- Model of `calculate_moic(total_value, invested_capital)`: `None` unless the
invested capital is positive. -/
def calculate_moic (total_value invested_capital : ℚ) : Option ℚ :=
  if invested_capital ≤ 0 then none else some (total_value / invested_capital)

/-- Model of `calculate_called_percent(paid_in, commitment)`: `None` unless the
commitment is positive. -/
def calculate_called_percent (paid_in commitment : ℚ) : Option ℚ :=
  if commitment ≤ 0 then none else some (paid_in / commitment * 100)

/-- Model of `calculate_distributed_percent(distributions, commitment)`: `None`
unless the commitment is positive. -/
def calculate_distributed_percent (distributions commitment : ℚ) : Option ℚ :=
  if commitment ≤ 0 then none else some (distributions / commitment * 100)

-- ==========================================================================
-- Metrics engine: calculate_all_metrics (pe_metrics_engine.py, 236-286)
-- ==========================================================================

/-- The record of metrics produced by `calculate_all_metrics` (the keys of
the returned dictionary, in source order). -/
structure MetricsResult where
  paid_in : ℚ
  distributions : ℚ
  current_nav : ℚ
  total_value : ℚ
  total_commitment : ℚ
  unfunded_commitment : ℚ
  irr : Option ℚ
  tvpi : Option ℚ
  dpi : Option ℚ
  rvpi : Option ℚ
  moic : Option ℚ
  called_percent : Option ℚ
  distributed_percent : Option ℚ
deriving DecidableEq

/-- Model of `calculate_all_metrics(cash_flows, dates, total_commitment,
current_nav)`.  The IRR field appends `current_nav` as one extra flow dated
at the last transaction date (`dates[-1]`); the conditional expression in
the source only evaluates that call when `cash_flows` is non-empty, which
is why `dates.getLastD 0` (never reached on the code's own inputs when
`dates` is empty, where the source would raise `IndexError`) is a faithful
stand-in for `dates[-1]`. -/
def calculate_all_metrics (powf : ℚ → ℚ → Option ℚ) (cash_flows : List ℚ)
    (dates : List ℤ) (total_commitment current_nav : ℚ) : MetricsResult :=
  let paid_in : ℚ := |(cash_flows.filter fun cf => decide (cf < 0)).sum|
  let distributions : ℚ := (cash_flows.filter fun cf => decide (0 < cf)).sum
  let total_value : ℚ := distributions + current_nav
  { paid_in := paid_in
    distributions := distributions
    current_nav := current_nav
    total_value := total_value
    total_commitment := total_commitment
    unfunded_commitment := total_commitment - paid_in
    irr := if cash_flows.isEmpty then none else
      calculate_xirr powf (cash_flows ++ [current_nav]) (dates ++ [dates.getLastD 0])
        IRR_INITIAL_GUESS IRR_MAX_ITERATIONS IRR_TOLERANCE
    tvpi := calculate_tvpi total_value paid_in
    dpi := calculate_dpi distributions paid_in
    rvpi := calculate_rvpi current_nav paid_in
    moic := calculate_moic total_value paid_in
    called_percent := calculate_called_percent paid_in total_commitment
    distributed_percent := calculate_distributed_percent distributions total_commitment }

-- ==========================================================================
-- Metrics engine: aggregate_metrics (pe_metrics_engine.py, lines 293-339)
-- ==========================================================================

/-- The fields `aggregate_metrics` reads from each per-fund metrics
dictionary via `m.get(key, 0)`. -/
structure FundMetricsIn where
  paid_in : ℚ
  distributions : ℚ
  current_nav : ℚ
  total_commitment : ℚ
deriving DecidableEq

/-- A value stored in the aggregated-metrics dictionary: a dollar amount, a
nullable metric, or the fund count. -/
inductive AggValue where
  | amount : ℚ → AggValue
  | metric : Option ℚ → AggValue
  | count : ℕ → AggValue
deriving DecidableEq

/-- Model of `aggregate_metrics(fund_metrics_list)`, modelled as the association
list of dictionary entries the source builds, in source order: the empty
input returns the empty dictionary; otherwise the dollar fields are summed
and each ratio metric is recomputed from the summed totals.  The source
sets no `"irr"` key (its comment defers IRR aggregation to callers holding
the combined cash flows). -/
def aggregate_metrics (fund_metrics_list : List FundMetricsIn) : List (String × AggValue) :=
  if fund_metrics_list = [] then []
  else
    let total_paid_in : ℚ := (fund_metrics_list.map (·.paid_in)).sum
    let total_distributions : ℚ := (fund_metrics_list.map (·.distributions)).sum
    let total_nav : ℚ := (fund_metrics_list.map (·.current_nav)).sum
    let total_commitment : ℚ := (fund_metrics_list.map (·.total_commitment)).sum
    let total_value : ℚ := total_distributions + total_nav
    [("paid_in", AggValue.amount total_paid_in),
     ("distributions", AggValue.amount total_distributions),
     ("current_nav", AggValue.amount total_nav),
     ("total_value", AggValue.amount total_value),
     ("total_commitment", AggValue.amount total_commitment),
     ("unfunded_commitment", AggValue.amount (total_commitment - total_paid_in)),
     ("tvpi", AggValue.metric (calculate_tvpi total_value total_paid_in)),
     ("dpi", AggValue.metric (calculate_dpi total_distributions total_paid_in)),
     ("rvpi", AggValue.metric (calculate_rvpi total_nav total_paid_in)),
     ("moic", AggValue.metric (calculate_moic total_value total_paid_in)),
     ("called_percent", AggValue.metric (calculate_called_percent total_paid_in total_commitment)),
     ("distributed_percent", AggValue.metric (calculate_distributed_percent total_distributions total_commitment)),
     ("fund_count", AggValue.count fund_metrics_list.length)]

-- ==========================================================================
-- Cash-flow engine: data model (cash_flow_engine.py, lines 20-70)
-- ==========================================================================

/-- A calendar date as the year/month/day fields the engine reads. -/
structure CFDate where
  year : ℤ
  month : ℤ
  day : ℤ
deriving DecidableEq

/-- Chronological comparison of dates (Python's `datetime` ordering is
lexicographic on the calendar fields). -/
def CFDate.le (a b : CFDate) : Bool :=
  decide (a.year < b.year) ||
    (a.year == b.year &&
      (decide (a.month < b.month) ||
        (a.month == b.month && decide (a.day ≤ b.day))))

/-- The aggregation periods of `AggregationPeriod`. -/
inductive AggregationPeriod where
  | quarterly
  | yearly
  | monthly
  | all_time
deriving DecidableEq

/-- One cash-flow transaction (`CashFlow.__init__`). -/
structure CashFlow where
  transaction_id : ℤ
  fund_id : ℤ
  date : CFDate
  cf_type : String
  amount : ℚ
deriving DecidableEq

/-- Model of `CashFlow.is_call`: `self.amount < 0`. -/
def CashFlow.is_call (cf : CashFlow) : Bool :=
  decide (cf.amount < 0)

/-- Model of `CashFlow.is_distribution`: `self.amount > 0`. -/
def CashFlow.is_distribution (cf : CashFlow) : Bool :=
  decide (0 < cf.amount)

-- ==========================================================================
-- Cash-flow engine: processing functions (cash_flow_engine.py, 77-238)
-- ==========================================================================

/-- Lexicographic code-point comparison of character lists, the order
Python's `sorted` uses on strings. -/
def charListLe : List Char → List Char → Bool
  | [], _ => true
  | _ :: _, [] => false
  | a :: as, b :: bs =>
    if a.toNat < b.toNat then true
    else if b.toNat < a.toNat then false
    else charListLe as bs

/-- Lexicographic string comparison by code point. -/
def stringLe (a b : String) : Bool :=
  charListLe a.toList b.toList

/-- Zero-padded rendering of a month, `f"{month:02d}"`. -/
def twoDigit (m : ℤ) : String :=
  if 0 ≤ m ∧ m < 10 then "0" ++ toString m else toString m

/-- The period key derived for one cash flow: `"YYYY"`, `"YYYY-Qn"`,
`"YYYY-MM"`, or the single `"all_time"` bucket.  `(month - 1) // 3` is
Python floor division, `Int.fdiv` here. -/
def periodKey (period : AggregationPeriod) (d : CFDate) : String :=
  match period with
  | .yearly => toString d.year
  | .quarterly => toString d.year ++ "-Q" ++ toString (Int.fdiv (d.month - 1) 3 + 1)
  | .monthly => toString d.year ++ "-" ++ twoDigit d.month
  | .all_time => "all_time"

/-- Model of `aggregated[key] = aggregated.get(key, 0) + amount` on an
insertion-ordered dictionary modelled as an association list: an existing
key is updated in place, a new key is appended at the end. -/
def dictAdd (l : List (String × ℚ)) (k : String) (v : ℚ) : List (String × ℚ) :=
  match l with
  | [] => [(k, v)]
  | (k', v') :: rest =>
    if k' = k then (k', v' + v) :: rest else (k', v') :: dictAdd rest k v

/-- Model of `aggregate_by_period(cash_flows, period)`: buckets signed amounts by
the derived period key. -/
def aggregate_by_period (cash_flows : List CashFlow) (period : AggregationPeriod) :
    List (String × ℚ) :=
  cash_flows.foldl (fun acc cf => dictAdd acc (periodKey period cf.date) cf.amount) []

/-- Dictionary read with a default, `d.get(k, default)`. -/
def lookupD (l : List (String × ℚ)) (k : String) (default : ℚ) : ℚ :=
  match l with
  | [] => default
  | (k', v) :: rest => if k' = k then v else lookupD rest k default

/-- Insert a string into an already-sorted list (helper for the model of
Python's `sorted`). -/
def insertSorted (x : String) : List String → List String
  | [] => [x]
  | y :: ys => if stringLe x y then x :: y :: ys else y :: insertSorted x ys

/-- Model of `sorted(keys)`: insertion sort under the code-point order. -/
def sortStrings (l : List String) : List String :=
  l.foldr insertSorted []

/-- Model of `"fee" in cf.cf_type.lower()`. -/
def typeHasFee (cf_type : String) : Bool :=
  decide ("fee".toList <:+: cf_type.toLower.toList)

/-- Model of `separate_calls_and_distributions(cash_flows, include_fees)`: partitions
by amount sign; a flow with `amount == 0` is neither a call nor a
distribution and lands in neither list; with `include_fees=False`,
fee-typed calls are dropped. -/
def separate_calls_and_distributions (cash_flows : List CashFlow)
    (include_fees : Bool) : List CashFlow × List CashFlow :=
  match cash_flows with
  | [] => ([], [])
  | cf :: rest =>
    let p := separate_calls_and_distributions rest include_fees
    if cf.is_call then
      if include_fees || !typeHasFee cf.cf_type then (cf :: p.1, p.2) else p
    else if cf.is_distribution then (p.1, cf :: p.2)
    else p

/-- Model of `filter_by_date_range(cash_flows, start_date, end_date)`: inclusive
bounds, each side optional. -/
def filter_by_date_range (cash_flows : List CashFlow)
    (start_date end_date : Option CFDate) : List CashFlow :=
  let f1 :=
    match start_date with
    | some sd => cash_flows.filter fun cf => CFDate.le sd cf.date
    | none => cash_flows
  match end_date with
  | some ed => f1.filter fun cf => CFDate.le cf.date ed
  | none => f1

-- ==========================================================================
-- Cash-flow engine: calculate_j_curve (cash_flow_engine.py, 245-285)
-- ==========================================================================

/-- One emitted J-curve data point. -/
structure JCurvePoint where
  period : String
  net_flow : ℚ
  cumulative_flow : ℚ
deriving DecidableEq

/-- Running-total emission over the sorted period keys. -/
def jCurveScan (aggregated : List (String × ℚ)) (cumulative : ℚ) :
    List String → List JCurvePoint
  | [] => []
  | k :: ks =>
    let net := lookupD aggregated k 0
    ⟨k, net, cumulative + net⟩ :: jCurveScan aggregated (cumulative + net) ks

/-- Model of `calculate_j_curve(cash_flows, period)`: aggregates by period, sorts the
period keys lexicographically, then emits `{period, net_flow,
cumulative_flow}` with a running total. -/
def calculate_j_curve (cash_flows : List CashFlow) (period : AggregationPeriod) :
    List JCurvePoint :=
  let aggregated := aggregate_by_period cash_flows period
  jCurveScan aggregated 0 (sortStrings (aggregated.map Prod.fst))

-- ==========================================================================
-- Cash-flow engine: calculate_ytd_metrics (cash_flow_engine.py, 292-325)
-- ==========================================================================

/-- The record returned by `calculate_ytd_metrics`. -/
structure YtdMetrics where
  ytd_calls : ℚ
  ytd_distributions : ℚ
  ytd_net_flow : ℚ
  ytd_transaction_count : ℕ
  reference_year : ℤ
deriving DecidableEq

/-- Model of `calculate_ytd_metrics(cash_flows, reference_date)`: the `now` argument
models the `datetime.now()` the source substitutes when `reference_date`
is `None`.  Restricts to `[Jan 1 of the reference year, reference_date]`
and totals calls and distributions in that window. -/
def calculate_ytd_metrics (cash_flows : List CashFlow)
    (reference_date : Option CFDate) (now : CFDate) : YtdMetrics :=
  let ref := reference_date.getD now
  let year_start : CFDate := ⟨ref.year, 1, 1⟩
  let ytd_flows := filter_by_date_range cash_flows (some year_start) (some ref)
  let cd := separate_calls_and_distributions ytd_flows true
  let total_calls := (cd.1.map fun cf => |cf.amount|).sum
  let total_distributions := (cd.2.map (·.amount)).sum
  ⟨total_calls, total_distributions, total_distributions - total_calls,
    ytd_flows.length, ref.year⟩

-- ==========================================================================
-- Projection engine: shape generation (projection_engine.py, lines 40-103)
-- ==========================================================================

/-- Model of `generate_s_curve(num_periods, peak_period, steepness)`: logistic
sigmoid weights `1 / (1 + exp(-x))` with `x = (i - peak_period) /
(num_periods / steepness)`, normalized to sum to 1 when the raw sum is
positive.  `expf` abstracts `math.exp` (a strictly positive function). -/
def generate_s_curve (expf : ℚ → ℚ) (num_periods : ℕ) (peak_period : ℤ)
    (steepness : ℚ) : List ℚ :=
  let values := (List.range num_periods).map fun i =>
    let x : ℚ := ((i : ℚ) - (peak_period : ℚ)) / ((num_periods : ℚ) / steepness)
    1 / (1 + expf (-x))
  let total := values.sum
  if 0 < total then values.map (· / total) else values

/-- Model of `generate_j_curve(num_periods, trough_period, recovery_steepness)`:
weight `0.01` before the trough, `exp(((i - trough) / recovery_steepness) /
num_periods)` from the trough on, normalized to sum to 1 when the raw sum
is positive. -/
def generate_j_curve (expf : ℚ → ℚ) (num_periods : ℕ) (trough_period : ℤ)
    (recovery_steepness : ℚ) : List ℚ :=
  let values := (List.range num_periods).map fun i =>
    if (i : ℤ) < trough_period then (1 / 100 : ℚ)
    else expf (((i : ℚ) - (trough_period : ℚ)) / recovery_steepness / (num_periods : ℚ))
  let total := values.sum
  if 0 < total then values.map (· / total) else values

-- ==========================================================================
-- Projection engine: strategy parameters (projection_engine.py, 106-149)
-- ==========================================================================

/-- The per-strategy shape parameter row. -/
structure ShapeParams where
  call_peak : ℤ
  call_steepness : ℚ
  dist_trough : ℤ
  dist_steepness : ℚ
  j_curve_depth : ℚ
deriving DecidableEq

/-- Model of `get_strategy_shape_params(strategy, num_periods)`: the four-row table
with `int(num_periods * fraction)` peak/trough indices (modelled as exact
rational truncation), falling back to the Private Equity row for any
unrecognized strategy name. -/
def get_strategy_shape_params (strategy : String) (num_periods : ℕ) : ShapeParams :=
  if strategy = "Venture Capital" then
    ⟨⌊(num_periods : ℚ) * 3 / 10⌋, 5 / 2, ⌊(num_periods : ℚ) * 5 / 10⌋, 6 / 5, 15 / 100⟩
  else if strategy = "Real Estate" then
    ⟨⌊(num_periods : ℚ) * 2 / 10⌋, 3, ⌊(num_periods : ℚ) * 1 / 10⌋, 2, 2 / 100⟩
  else if strategy = "Infrastructure" then
    ⟨⌊(num_periods : ℚ) * 5 / 10⌋, 3 / 2, ⌊(num_periods : ℚ) * 2 / 10⌋, 3, 1 / 100⟩
  else
    ⟨⌊(num_periods : ℚ) * 4 / 10⌋, 2, ⌊(num_periods : ℚ) * 4 / 10⌋, 3 / 2, 8 / 100⟩

-- ==========================================================================
-- Projection engine: Takahashi/Alexander model (projection_engine.py,
-- lines 156-267)
-- ==========================================================================

/-- One simulated quarter emitted by `project_cash_flows_takahashi` (the
wall-clock `quarter_date` field is derived from `datetime.now()` plus a
90-day stride and carries no engine state; it is omitted here). -/
structure ProjectionPeriod where
  period : ℕ
  call_investment : ℚ
  management_fees : ℚ
  distribution : ℚ
  nav : ℚ
  nav_change : ℚ
deriving DecidableEq

/-- The loop-invariant context of the Takahashi simulation: the generated
shapes, the strategy row's trough and J-curve depth, the quarterly growth
`(1 + target_irr) ** 0.25 - 1`, the fee base `unfunded_commitment +
current_nav` (the source charges fees on the original arguments), the
quarterly fee rate, and the clock/vintage years for the fee tier. -/
structure TakahashiCtx where
  call_shape : List ℚ
  dist_shape : List ℚ
  dist_trough : ℤ
  j_curve_depth : ℚ
  quarterly_growth : ℚ
  fee_base : ℚ
  quarterly_fee_rate : ℚ
  current_year : ℤ
  effective_vintage : ℤ
deriving DecidableEq

/-- One quarter at a time: capital call from the running commitment, tiered
management fee (full rate through year 5 since vintage, half after),
distribution from the remaining pool, J-curve depreciation before the
trough and IRR-derived growth after, and the NAV floored at zero. -/
def takahashiLoop (c : TakahashiCtx) :
    ℕ → ℕ → ℚ → ℚ → ℚ → List ProjectionPeriod
  | 0, _, _, _, _ => []
  | fuel + 1, period, nav, remCommit, remDist =>
    let call_investment := remCommit * c.call_shape.getD period 0
    let years_since_vintage := c.current_year + ((period / 4 : ℕ) : ℤ) - c.effective_vintage
    let management_fees :=
      if years_since_vintage ≤ 5 then c.fee_base * c.quarterly_fee_rate
      else c.fee_base * (c.quarterly_fee_rate / 2)
    let distribution := remDist * c.dist_shape.getD period 0
    let nav_change :=
      if (period : ℤ) < c.dist_trough then nav * (-c.j_curve_depth / 4)
      else nav * c.quarterly_growth
    let nav' := max 0 (nav + call_investment - management_fees - distribution + nav_change)
    ⟨period + 1, -call_investment, -management_fees, distribution, nav', nav_change⟩ ::
      takahashiLoop c fuel (period + 1) nav' (remCommit - call_investment)
        (remDist - distribution)

/-- Model of `project_cash_flows_takahashi(unfunded_commitment, current_nav,
expected_moic, target_irr, strategy, num_periods, management_fee_rate,
vintage_year)`.  `expf` abstracts `math.exp` in the shape generators, `pw`
abstracts `x ** 0.25` in the growth rate, and `current_year` models
`datetime.now().year`.  Python's `vintage_year or current_year` treats both
`None` and `0` as absent. -/
def project_cash_flows_takahashi (expf : ℚ → ℚ) (pw : ℚ → ℚ)
    (current_year : ℤ) (unfunded_commitment current_nav expected_moic target_irr : ℚ)
    (strategy : String) (num_periods : ℕ) (management_fee_rate : ℚ)
    (vintage_year : Option ℤ) : List ProjectionPeriod :=
  let shape_params := get_strategy_shape_params strategy num_periods
  let call_shape := generate_s_curve expf num_periods shape_params.call_peak
    shape_params.call_steepness
  let dist_shape := generate_j_curve expf num_periods shape_params.dist_trough
    shape_params.dist_steepness
  let target_distributions := max 0 (unfunded_commitment * expected_moic - current_nav)
  let effective_vintage :=
    match vintage_year with
    | some v => if v = 0 then current_year else v
    | none => current_year
  let c : TakahashiCtx :=
    ⟨call_shape, dist_shape, shape_params.dist_trough, shape_params.j_curve_depth,
      pw (1 + target_irr) - 1, unfunded_commitment + current_nav,
      management_fee_rate / 4, current_year, effective_vintage⟩
  takahashiLoop c num_periods 0 current_nav unfunded_commitment target_distributions

-- ==========================================================================
-- Allocation optimizer: calculate_optimal_allocation
-- (projection_engine.py, lines 274-347)
-- ==========================================================================

/-- The per-strategy allocations before the budget rescaling: for each
target strategy, the gap to its target value is clamped into
`[min constraint (default 0), max constraint (default available_capital)]`
and floored at zero. -/
def rawAllocations (current_exposures target_exposures projected_distributions
    constraints : List (String × ℚ)) (available_capital : ℚ) : List (String × ℚ) :=
  let total_current := (current_exposures.map Prod.snd).sum
  let total_distributions := (projected_distributions.map Prod.snd).sum
  let projected_total := total_current - total_distributions + available_capital
  target_exposures.map fun sp =>
    let target_value := projected_total * sp.2
    let projected_value :=
      lookupD current_exposures sp.1 0 - lookupD projected_distributions sp.1 0
    let gap := target_value - projected_value
    let min_alloc := lookupD constraints (sp.1 ++ "_min") 0
    let max_alloc := lookupD constraints (sp.1 ++ "_max") available_capital
    (sp.1, max 0 (max min_alloc (min gap max_alloc)))

/-- Model of `calculate_optimal_allocation(current_exposures, target_exposures,
available_capital, projected_distributions, constraints)`: computes the
clamped gap allocations, then, if they over-allocate, scales every
allocation by `available_capital / total_allocated`. -/
def calculate_optimal_allocation (current_exposures target_exposures : List (String × ℚ))
    (available_capital : ℚ) (projected_distributions constraints : List (String × ℚ)) :
    List (String × ℚ) :=
  let allocations := rawAllocations current_exposures target_exposures
    projected_distributions constraints available_capital
  let total_allocated := (allocations.map Prod.snd).sum
  if available_capital < total_allocated then
    allocations.map fun kv => (kv.1, kv.2 * (available_capital / total_allocated))
  else allocations

-- ==========================================================================
-- Helper lemmas
-- ==========================================================================

/-- A `powf` used to instantiate the abstract power function on concrete
inputs: constantly `1`, trivially total and never zero. -/
def onePow : ℚ → ℚ → Option ℚ := fun _ _ => some 1

/-- An `expf` used to instantiate the abstract exponential on concrete
inputs: constantly `1`, strictly positive everywhere. -/
def oneExp : ℚ → ℚ := fun _ => 1

lemma newtonLoop_none_iff (powf : ℚ → ℚ → Option ℚ) (flows years : List ℚ) (tol : ℚ) :
    ∀ (n : ℕ) (rate : ℚ),
      newtonLoop powf flows years tol n rate = none ↔
        newtonFailureSpec powf flows years tol n rate = true := by
  intro n
  induction n with
  | zero => intro rate; simp [newtonLoop, newtonFailureSpec]
  | succ k ih =>
    intro rate
    rw [newtonLoop, newtonFailureSpec]
    cases hn : npvAt powf flows years rate with
    | none => simp
    | some npv =>
      cases hd : dnpvAt powf flows years rate with
      | none => simp
      | some dnpv =>
        simp only []
        split_ifs with h1 h2 h3
        · simp
        · simp
        · simp
        · exact ih _

lemma newtonLoop_some_npv (powf : ℚ → ℚ → Option ℚ) (flows years : List ℚ) (tol : ℚ) :
    ∀ (n : ℕ) (rate r : ℚ), newtonLoop powf flows years tol n rate = some r →
      ∃ v, npvAt powf flows years r = some v ∧ |v| < tol := by
  intro n
  induction n with
  | zero => intro rate r h; simp [newtonLoop] at h
  | succ k ih =>
    intro rate r h
    rw [newtonLoop] at h
    cases hn : npvAt powf flows years rate with
    | none => rw [hn] at h; simp at h
    | some npv =>
      cases hd : dnpvAt powf flows years rate with
      | none => rw [hn, hd] at h; simp at h
      | some dnpv =>
        rw [hn, hd] at h
        simp only [] at h
        split_ifs at h with h1 h2 h3
        · cases h
          exact ⟨npv, hn, h1⟩
        · exact ih _ r h

-- ==========================================================================
-- Claim theorems
-- ==========================================================================

/-- Claim C1.  `calculate_xirr` is a total function into an optional rate
(it never raises): it returns the absent value exactly when the input has
fewer than 2 flows, the flows and dates lists differ in length, or the
Newton iteration fails per the spec's enumerated conditions (taken in the
solver's own check order: an overflow/zero-division while evaluating NPV
or its derivative, a derivative magnitude below tolerance at a
non-converged iterate, a Newton update drifting outside `[-0.99, 10]`, or
`max_iterations` steps passing without `|NPV| < tolerance`); and whenever
it returns a rate `r`, the NPV of the flows at `r` over the Actual/365.25
year fractions is defined and has magnitude below `tolerance`. -/
theorem xirr_failure_modes (powf : ℚ → ℚ → Option ℚ) (cash_flows : List ℚ)
    (dates : List ℤ) (initial_guess : ℚ) (max_iterations : ℕ) (tolerance : ℚ) :
    (calculate_xirr powf cash_flows dates initial_guess max_iterations tolerance = none ↔
      cash_flows.length < 2 ∨ cash_flows.length ≠ dates.length ∨
        newtonFailureSpec powf cash_flows (yearsFrom dates) tolerance
          max_iterations initial_guess = true) ∧
    (∀ r, calculate_xirr powf cash_flows dates initial_guess max_iterations tolerance = some r →
      ∃ v, npvAt powf cash_flows (yearsFrom dates) r = some v ∧ |v| < tolerance) := by
  constructor
  · rw [calculate_xirr]
    split_ifs with h1 h2
    · simp [h1]
    · simp [h1, h2]
    · rw [newtonLoop_none_iff]
      simp [h1, h2]
  · intro r hr
    rw [calculate_xirr] at hr
    split_ifs at hr with h1 h2
    · exact newtonLoop_some_npv powf cash_flows (yearsFrom dates) tolerance
        max_iterations initial_guess r hr

/-- Witness for C1: on a concrete two-flow input with an iteration budget
of one, the solver fails (budget exhausted without convergence) and the
failure-condition equivalence evaluates as stated. -/
theorem xirr_failure_modes_witness :
    calculate_xirr onePow [-1, 2] [0, 365] (1 / 10) 1 (1 / 1000000) = none :=
  (xirr_failure_modes onePow [-1, 2] [0, 365] (1 / 10) 1 (1 / 1000000)).1.mpr
    (Or.inr (Or.inr (by
      norm_num [newtonFailureSpec, npvAt, dnpvAt, npvTerm, dnpvTerm, sumOption,
        yearsFrom, onePow])))

/-- Claim C2.  `calculate_all_metrics` computes `paid_in` as the absolute
sum of the negative flows, `distributions` as the sum of the positive
flows, `total_value = distributions + current_nav`,
`unfunded_commitment = total_commitment - paid_in`; its `irr` field is
`calculate_xirr` on the flows with `current_nav` appended as one additional
flow dated at the last transaction date; and each ratio field equals its
defining quotient when its denominator is positive and is the absent value
(never a divide-by-zero fault — the model is a total function) when its
denominator is non-positive. -/
theorem all_metrics_spec (powf : ℚ → ℚ → Option ℚ) (cash_flows : List ℚ)
    (dates : List ℤ) (total_commitment current_nav : ℚ) (h : dates ≠ []) :
    ∀ m, m = calculate_all_metrics powf cash_flows dates total_commitment current_nav →
      m.paid_in = |(cash_flows.filter fun cf => decide (cf < 0)).sum| ∧
      m.distributions = (cash_flows.filter fun cf => decide (0 < cf)).sum ∧
      m.current_nav = current_nav ∧
      m.total_value = m.distributions + current_nav ∧
      m.unfunded_commitment = total_commitment - m.paid_in ∧
      m.irr = calculate_xirr powf (cash_flows ++ [current_nav]) (dates ++ [dates.getLast h])
        IRR_INITIAL_GUESS IRR_MAX_ITERATIONS IRR_TOLERANCE ∧
      (0 < m.paid_in → m.tvpi = some (m.total_value / m.paid_in)) ∧
      (m.paid_in ≤ 0 → m.tvpi = none) ∧
      (0 < m.paid_in → m.dpi = some (m.distributions / m.paid_in)) ∧
      (m.paid_in ≤ 0 → m.dpi = none) ∧
      (0 < m.paid_in → m.rvpi = some (current_nav / m.paid_in)) ∧
      (m.paid_in ≤ 0 → m.rvpi = none) ∧
      (0 < m.paid_in → m.moic = some (m.total_value / m.paid_in)) ∧
      (m.paid_in ≤ 0 → m.moic = none) ∧
      (0 < total_commitment → m.called_percent = some (m.paid_in / total_commitment * 100)) ∧
      (total_commitment ≤ 0 → m.called_percent = none) ∧
      (0 < total_commitment →
        m.distributed_percent = some (m.distributions / total_commitment * 100)) ∧
      (total_commitment ≤ 0 → m.distributed_percent = none) := by
  intro m hm
  subst hm
  refine ⟨rfl, rfl, rfl, rfl, rfl, ?_, ?_, ?_, ?_, ?_, ?_, ?_, ?_, ?_, ?_, ?_, ?_, ?_⟩
  · by_cases hcf : cash_flows.isEmpty
    · rw [List.isEmpty_iff] at hcf
      subst hcf
      simp [calculate_all_metrics, calculate_xirr]
    · have hg : dates.getLast? = some (dates.getLast h) := List.getLast?_eq_getLast dates h
      simp [calculate_all_metrics, hcf, hg]
  · intro hp
    simp only [calculate_all_metrics] at hp ⊢
    rw [calculate_tvpi, if_neg (not_le.mpr hp)]
  · intro hp
    simp only [calculate_all_metrics] at hp ⊢
    rw [calculate_tvpi, if_pos hp]
  · intro hp
    simp only [calculate_all_metrics] at hp ⊢
    rw [calculate_dpi, if_neg (not_le.mpr hp)]
  · intro hp
    simp only [calculate_all_metrics] at hp ⊢
    rw [calculate_dpi, if_pos hp]
  · intro hp
    simp only [calculate_all_metrics] at hp ⊢
    rw [calculate_rvpi, if_neg (not_le.mpr hp)]
  · intro hp
    simp only [calculate_all_metrics] at hp ⊢
    rw [calculate_rvpi, if_pos hp]
  · intro hp
    simp only [calculate_all_metrics] at hp ⊢
    rw [calculate_moic, if_neg (not_le.mpr hp)]
  · intro hp
    simp only [calculate_all_metrics] at hp ⊢
    rw [calculate_moic, if_pos hp]
  · intro hp
    simp only [calculate_all_metrics]
    rw [calculate_called_percent, if_neg (not_le.mpr hp)]
  · intro hp
    simp only [calculate_all_metrics]
    rw [calculate_called_percent, if_pos hp]
  · intro hp
    simp only [calculate_all_metrics]
    rw [calculate_distributed_percent, if_neg (not_le.mpr hp)]
  · intro hp
    simp only [calculate_all_metrics]
    rw [calculate_distributed_percent, if_pos hp]

/-- Witness for C2: the metrics record on a concrete two-flow input, with
its IRR equal to the solver applied to the NAV-extended flow list. -/
theorem all_metrics_spec_witness :
    ([0, 365] : List ℤ) ≠ [] ∧
    (calculate_all_metrics onePow [-100, 50] [0, 365] 200 60).paid_in =
      |(([-100, 50] : List ℚ).filter fun cf => decide (cf < 0)).sum| :=
  ⟨by decide,
    (all_metrics_spec onePow [-100, 50] [0, 365] 200 60 (by decide) _ rfl).1⟩

/-- Counterexample to claim C3 as stated: the aggregated dictionary
computed by `aggregate_metrics` for a concrete non-empty fund list holds
no `"irr"` entry at all — the portfolio-level IRR is silently left unset,
and the metrics engine defines no `aggregate_irr` operation (its
`aggregate_metrics` comment defers IRR to callers holding combined
flows). -/
theorem aggregate_metrics_omits_irr :
    (aggregate_metrics [⟨100000, 50000, 60000, 150000⟩]).lookup "irr" = none ∧
    "irr" ∉ (aggregate_metrics [⟨100000, 50000, 60000, 150000⟩]).map Prod.fst := by
  constructor
  · simp +decide [aggregate_metrics, List.lookup]
  · simp +decide [aggregate_metrics]

/-- Claim C3, amended.  For every non-empty fund-metrics list the
aggregator returns exactly the thirteen summed/recomputed entries, with no
`"irr"` key: the combined IRR is omitted (deferred to callers with the
combined cash flows) rather than exposed through an `aggregate_irr`
operation. -/
theorem aggregate_metrics_keys_no_irr (fund_metrics_list : List FundMetricsIn)
    (h : fund_metrics_list ≠ []) :
    (aggregate_metrics fund_metrics_list).map Prod.fst =
      ["paid_in", "distributions", "current_nav", "total_value", "total_commitment",
       "unfunded_commitment", "tvpi", "dpi", "rvpi", "moic", "called_percent",
       "distributed_percent", "fund_count"] ∧
    (aggregate_metrics fund_metrics_list).lookup "irr" = none := by
  rw [aggregate_metrics, if_neg h]
  constructor
  · rfl
  · simp +decide [List.lookup]

/-- Witness for the amended C3 on a concrete one-fund list. -/
theorem aggregate_metrics_keys_no_irr_witness :
    ([(⟨100000, 50000, 60000, 150000⟩ : FundMetricsIn)] ≠ []) ∧
    (aggregate_metrics [⟨100000, 50000, 60000, 150000⟩]).map Prod.fst =
      ["paid_in", "distributions", "current_nav", "total_value", "total_commitment",
       "unfunded_commitment", "tvpi", "dpi", "rvpi", "moic", "called_percent",
       "distributed_percent", "fund_count"] :=
  ⟨by simp,
    (aggregate_metrics_keys_no_irr [⟨100000, 50000, 60000, 150000⟩] (by simp)).1⟩

lemma takahashiLoop_nav_nonneg (c : TakahashiCtx) :
    ∀ (fuel period : ℕ) (nav remCommit remDist : ℚ),
      ∀ p ∈ takahashiLoop c fuel period nav remCommit remDist, 0 ≤ p.nav := by
  intro fuel
  induction fuel with
  | zero => intro period nav rc rd p hp; simp [takahashiLoop] at hp
  | succ k ih =>
    intro period nav rc rd p hp
    rw [takahashiLoop] at hp
    rcases List.mem_cons.mp hp with hhead | htail
    · subst hhead
      exact le_max_left 0 _
    · exact ih _ _ _ _ p htail

/-- Claim C5.  Every period record emitted by
`project_cash_flows_takahashi` carries a non-negative NAV: the simulation
floors NAV at 0 each quarter, for every input and for every abstraction of
the real exponential/power the source evaluates. -/
theorem takahashi_nav_nonneg (expf pw : ℚ → ℚ) (current_year : ℤ)
    (unfunded_commitment current_nav expected_moic target_irr : ℚ) (strategy : String)
    (num_periods : ℕ) (management_fee_rate : ℚ) (vintage_year : Option ℤ) :
    ∀ p ∈ project_cash_flows_takahashi expf pw current_year unfunded_commitment
        current_nav expected_moic target_irr strategy num_periods management_fee_rate
        vintage_year, 0 ≤ p.nav := by
  intro p hp
  exact takahashiLoop_nav_nonneg _ _ _ _ _ _ p hp

/-- Witness for C5: the single record of a one-quarter projection run has
non-negative NAV. -/
theorem takahashi_nav_nonneg_witness :
    (0 : ℚ) ≤ (⟨1, 0, 0, 0, 0, 0⟩ : ProjectionPeriod).nav :=
  takahashi_nav_nonneg oneExp (fun _ => 1) 2025 0 0 2 (15 / 100) "Private Equity" 1
    (2 / 100) none ⟨1, 0, 0, 0, 0, 0⟩ (by
      norm_num [project_cash_flows_takahashi, takahashiLoop, generate_s_curve,
        generate_j_curve, get_strategy_shape_params, oneExp, List.range_succ])

lemma sum_map_div (l : List ℚ) (c : ℚ) : (l.map (· / c)).sum = l.sum / c := by
  induction l with
  | nil => simp
  | cons a t ih => simp [ih, add_div]

/-- Claim C7.  For every period count `n ≥ 1` and every peak/trough index,
the `n` weights returned by `generate_s_curve` and by `generate_j_curve`
each sum to exactly 1 in the exact-rational model (hence within `1e-9`),
for every strictly positive abstraction of `math.exp`; the all-zero
fallback branch is only reachable when the raw pre-normalization sum is
not positive, which positivity of the weights rules out. -/
lemma normalized_sum_one (values : List ℚ) (hpos : ∀ v ∈ values, 0 < v)
    (hne : values ≠ []) :
    (if 0 < values.sum then values.map (· / values.sum) else values).sum = 1 := by
  have htot := List.sum_pos values hpos hne
  rw [if_pos htot, sum_map_div, div_self (ne_of_gt htot)]

theorem shape_curves_sum_to_one (expf : ℚ → ℚ) (num_periods : ℕ)
    (peak_period trough_period : ℤ) (steepness recovery_steepness : ℚ)
    (hn : 1 ≤ num_periods) (hexp : ∀ x, 0 < expf x) :
    (generate_s_curve expf num_periods peak_period steepness).sum = 1 ∧
    (generate_j_curve expf num_periods trough_period recovery_steepness).sum = 1 := by
  constructor
  · rw [generate_s_curve]
    refine normalized_sum_one _ ?_ ?_
    · intro v hv
      rcases List.mem_map.mp hv with ⟨i, _, rfl⟩
      have h1 : (0 : ℚ) < 1 + expf (-(((i : ℚ) - (peak_period : ℚ)) /
          ((num_periods : ℚ) / steepness))) := by linarith [hexp (-(((i : ℚ) - (peak_period : ℚ)) / ((num_periods : ℚ) / steepness)))]
      exact div_pos one_pos h1
    · cases num_periods with
      | zero => exact absurd hn (by norm_num)
      | succ k => simp [List.range_succ]
  · rw [generate_j_curve]
    refine normalized_sum_one _ ?_ ?_
    · intro v hv
      rcases List.mem_map.mp hv with ⟨i, _, rfl⟩
      by_cases hi : (i : ℤ) < trough_period
      · rw [if_pos hi]; norm_num
      · rw [if_neg hi]; exact hexp _
    · cases num_periods with
      | zero => exact absurd hn (by norm_num)
      | succ k => simp [List.range_succ]

/-- Witness for C7: three-period curves with a concrete positive
exponential sum to 1. -/
theorem shape_curves_sum_to_one_witness :
    (generate_s_curve oneExp 3 1 2).sum = 1 ∧ (generate_j_curve oneExp 3 1 (3 / 2)).sum = 1 :=
  shape_curves_sum_to_one oneExp 3 1 1 2 (3 / 2) (by norm_num)
    (fun x => by norm_num [oneExp])

/-- Claim C6.  With a non-negative budget, the allocations returned by
`calculate_optimal_allocation` sum to at most `available_capital`, and
whenever the clamped per-strategy gaps over-allocate (their sum exceeds
the budget) the returned allocations sum to exactly `available_capital`
(each one scaled by `available_capital / Σ allocations`). -/
theorem optimal_allocation_within_budget
    (current_exposures target_exposures projected_distributions constraints :
      List (String × ℚ)) (available_capital : ℚ) (h : 0 ≤ available_capital) :
    ((calculate_optimal_allocation current_exposures target_exposures available_capital
        projected_distributions constraints).map Prod.snd).sum ≤ available_capital ∧
    (available_capital <
        ((rawAllocations current_exposures target_exposures projected_distributions
          constraints available_capital).map Prod.snd).sum →
      ((calculate_optimal_allocation current_exposures target_exposures available_capital
          projected_distributions constraints).map Prod.snd).sum = available_capital) := by
  have hscaled : available_capital <
      ((rawAllocations current_exposures target_exposures projected_distributions
        constraints available_capital).map Prod.snd).sum →
      ((calculate_optimal_allocation current_exposures target_exposures available_capital
        projected_distributions constraints).map Prod.snd).sum = available_capital := by
    intro hlt
    have htpos : 0 < ((rawAllocations current_exposures target_exposures
        projected_distributions constraints available_capital).map Prod.snd).sum :=
      lt_of_le_of_lt h hlt
    simp only [calculate_optimal_allocation]
    rw [if_pos hlt, List.map_map]
    have hcomp : (Prod.snd ∘ fun kv : String × ℚ =>
        (kv.1, kv.2 * (available_capital /
          ((rawAllocations current_exposures target_exposures projected_distributions
            constraints available_capital).map Prod.snd).sum))) = fun kv : String × ℚ =>
        Prod.snd kv * (available_capital /
          ((rawAllocations current_exposures target_exposures projected_distributions
            constraints available_capital).map Prod.snd).sum) := rfl
    rw [hcomp, List.sum_map_mul_right, mul_comm, div_mul_cancel₀ _ (ne_of_gt htpos)]
  constructor
  · by_cases hc : available_capital <
        ((rawAllocations current_exposures target_exposures projected_distributions
          constraints available_capital).map Prod.snd).sum
    · exact le_of_eq (hscaled hc)
    · simp only [calculate_optimal_allocation]
      rw [if_neg hc]
      exact not_lt.mp hc
  · exact hscaled

/-- Witness for C6: with two strategies each demanding the whole budget,
the raw gaps over-allocate and the returned allocations are scaled back to
the budget exactly. -/
theorem optimal_allocation_within_budget_witness :
    (0 : ℚ) ≤ 10 ∧
    (((calculate_optimal_allocation [("A", 0), ("B", 0)] [("A", 1), ("B", 1)] 10 [] []).map
        Prod.snd).sum ≤ 10 ∧
      ((10 : ℚ) <
          ((rawAllocations [("A", 0), ("B", 0)] [("A", 1), ("B", 1)] [] [] 10).map
            Prod.snd).sum →
        ((calculate_optimal_allocation [("A", 0), ("B", 0)] [("A", 1), ("B", 1)] 10 [] []).map
          Prod.snd).sum = 10)) :=
  ⟨by norm_num,
    optimal_allocation_within_budget [("A", 0), ("B", 0)] [("A", 1), ("B", 1)] [] [] 10
      (by norm_num)⟩

/-- Counterexample to claim C8 as stated: `calculate_ytd_metrics` with the
default (absent) reference date reads the wall clock, so two invocations
on identical inputs — the same flow list and the same absent
`reference_date` — generally return different outputs when the ambient
clock (the explicit `now` argument of the model) has moved into a new
year.  Engine calls are therefore not bit-identical functions of their
inputs alone. -/
theorem ytd_clock_counterexample :
    calculate_ytd_metrics [⟨1, 1, ⟨2020, 6, 1⟩, "distribution_profit", 100⟩] none
        ⟨2020, 7, 1⟩ ≠
      calculate_ytd_metrics [⟨1, 1, ⟨2020, 6, 1⟩, "distribution_profit", 100⟩] none
        ⟨2021, 1, 2⟩ := by
  simp +decide [calculate_ytd_metrics, filter_by_date_range,
    separate_calls_and_distributions, CFDate.le, CashFlow.is_call,
    CashFlow.is_distribution]

/-- Claim C8, amended.  Engine operations are deterministic in their
explicit inputs together with the ambient clock; in particular
`calculate_ytd_metrics` with an explicitly supplied reference date is
independent of the clock reading. -/
theorem ytd_explicit_reference_clock_independent (cash_flows : List CashFlow)
    (reference_date : CFDate) (now now' : CFDate) :
    calculate_ytd_metrics cash_flows (some reference_date) now =
      calculate_ytd_metrics cash_flows (some reference_date) now' := rfl

/-- Witness for the amended C8 at concrete clock readings a year apart. -/
theorem ytd_explicit_reference_clock_independent_witness :
    calculate_ytd_metrics [] (some ⟨2020, 1, 1⟩) ⟨2020, 1, 1⟩ =
      calculate_ytd_metrics [] (some ⟨2020, 1, 1⟩) ⟨2021, 6, 15⟩ :=
  ytd_explicit_reference_clock_independent [] ⟨2020, 1, 1⟩ ⟨2020, 1, 1⟩ ⟨2021, 6, 15⟩

/-- The concrete flow list of claim C9: `-150000` in year 1, then
`+20000, +30000, +70000` in years 2-4. -/
def jCurveExampleFlows : List CashFlow :=
  [⟨1, 1, ⟨2020, 6, 30⟩, "call_investment", -150000⟩,
   ⟨2, 1, ⟨2021, 6, 30⟩, "distribution_profit", 20000⟩,
   ⟨3, 1, ⟨2022, 6, 30⟩, "distribution_profit", 30000⟩,
   ⟨4, 1, ⟨2023, 6, 30⟩, "distribution_profit", 70000⟩]

/-- Claim C9.  On the flows `-150000` (year 1) then `+20000, +30000,
+70000` (years 2-4), `calculate_j_curve` with yearly aggregation emits the
periods in chronological order, the cumulative series has its minimum at
the year-1 entry (equal to `-150000`), and the series is non-decreasing
from that entry on. -/
theorem j_curve_example_shape :
    (calculate_j_curve jCurveExampleFlows .yearly).map (·.period) =
      ["2020", "2021", "2022", "2023"] ∧
    (calculate_j_curve jCurveExampleFlows .yearly).head?.map (·.cumulative_flow) =
      some (-150000) ∧
    (∀ p ∈ calculate_j_curve jCurveExampleFlows .yearly, -150000 ≤ p.cumulative_flow) ∧
    List.Chain' (· ≤ ·)
      ((calculate_j_curve jCurveExampleFlows .yearly).map (·.cumulative_flow)) := by
  have hJ : calculate_j_curve jCurveExampleFlows .yearly =
      [⟨"2020", -150000, -150000⟩, ⟨"2021", 20000, -130000⟩,
       ⟨"2022", 30000, -100000⟩, ⟨"2023", 70000, -30000⟩] := by
    simp +decide [calculate_j_curve, aggregate_by_period, dictAdd, periodKey,
      jCurveExampleFlows, sortStrings, insertSorted, jCurveScan, lookupD]
    norm_num
  rw [hJ]
  refine ⟨rfl, rfl, ?_, ?_⟩
  · intro p hp
    fin_cases hp <;> norm_num
  · norm_num [List.chain'_cons]

/-- Witness for C9: the year-1 entry of the concrete J-curve attains the
cumulative minimum stated by the theorem. -/
theorem j_curve_example_shape_witness :
    (-150000 : ℚ) ≤ (⟨"2020", -150000, -150000⟩ : JCurvePoint).cumulative_flow :=
  j_curve_example_shape.2.2.1 ⟨"2020", -150000, -150000⟩ (by
    have hJ : calculate_j_curve jCurveExampleFlows .yearly =
        [⟨"2020", -150000, -150000⟩, ⟨"2021", 20000, -130000⟩,
         ⟨"2022", 30000, -100000⟩, ⟨"2023", 70000, -30000⟩] := by
      simp +decide [calculate_j_curve, aggregate_by_period, dictAdd, periodKey,
        jCurveExampleFlows, sortStrings, insertSorted, jCurveScan, lookupD]
      norm_num
    rw [hJ]
    exact List.mem_cons_self _ _)

lemma separate_calls_sign (cash_flows : List CashFlow) (include_fees : Bool) :
    (∀ x ∈ (separate_calls_and_distributions cash_flows include_fees).1, x.amount < 0) ∧
    (∀ x ∈ (separate_calls_and_distributions cash_flows include_fees).2, 0 < x.amount) := by
  induction cash_flows with
  | nil => simp [separate_calls_and_distributions]
  | cons cf rest ih =>
    rw [separate_calls_and_distributions]
    split_ifs with h1 h2 h3
    · refine ⟨?_, ih.2⟩
      intro x hx
      rcases List.mem_cons.mp hx with rfl | hx'
      · exact of_decide_eq_true h1
      · exact ih.1 x hx'
    · exact ih
    · refine ⟨ih.1, ?_⟩
      intro x hx
      rcases List.mem_cons.mp hx with rfl | hx'
      · exact of_decide_eq_true h3
      · exact ih.2 x hx'
    · exact ih

/-- Claim C10.  A cash flow with amount exactly 0 is classified as neither
a call nor a distribution: for every flow list and either value of
`include_fees`, it appears in neither output list of
`separate_calls_and_distributions`, so the two lists do not in general
partition the input. -/
theorem zero_flow_unclassified (cash_flows : List CashFlow) (include_fees : Bool)
    (cf : CashFlow) (h : cf.amount = 0) :
    cf ∉ (separate_calls_and_distributions cash_flows include_fees).1 ∧
    cf ∉ (separate_calls_and_distributions cash_flows include_fees).2 := by
  obtain ⟨hc, hd⟩ := separate_calls_sign cash_flows include_fees
  constructor
  · intro hmem
    exact absurd (hc cf hmem) (by rw [h]; norm_num)
  · intro hmem
    exact absurd (hd cf hmem) (by rw [h]; norm_num)

/-- Witness for C10: a zero-amount `nav_update` flow fed to the splitter
lands in neither output list. -/
theorem zero_flow_unclassified_witness :
    (⟨1, 1, ⟨2020, 1, 1⟩, "nav_update", 0⟩ : CashFlow).amount = 0 ∧
    ((⟨1, 1, ⟨2020, 1, 1⟩, "nav_update", 0⟩ : CashFlow) ∉
        (separate_calls_and_distributions [⟨1, 1, ⟨2020, 1, 1⟩, "nav_update", 0⟩] true).1 ∧
      (⟨1, 1, ⟨2020, 1, 1⟩, "nav_update", 0⟩ : CashFlow) ∉
        (separate_calls_and_distributions [⟨1, 1, ⟨2020, 1, 1⟩, "nav_update", 0⟩] true).2) :=
  ⟨rfl, zero_flow_unclassified [⟨1, 1, ⟨2020, 1, 1⟩, "nav_update", 0⟩] true _ rfl⟩

end PE
